import Mathlib

/-!
Verification of the ingestion & deduplication pipeline of the
news-thats-not-crap repository (scripts/fetch-news.js, the expanded variant
embedded in PROCESS.md): normalizer, positivity scorer, archive matcher,
batch deduplicator and selector, with the theorems settling the frozen
claims about them.

Strings are modelled as Lean `String` (lists of characters); the inputs the
pipeline sees are ASCII, for which the JavaScript string operations used by
the source (`toLowerCase`, `slice`, `split`, `includes`, regex replace over
`[^a-z0-9\s]` and `\s+`) coincide with the character-list definitions below.
JavaScript string truthiness (`x && ...`, `a || b`) is modelled explicitly:
a missing field is `Option.none` and the empty string is falsy.
-/

/-- JS `String.prototype.toLowerCase` on one character (ASCII range; the
source's keyword lists and the regex class `[a-z0-9\s]` are ASCII). -/
def jsToLower (c : Char) : Char :=
  if 'A' ≤ c && c ≤ 'Z' then Char.ofNat (c.toNat + 32) else c

/-- JS `toLowerCase` on a string, character by character. -/
def lowerStr (s : String) : String :=
  String.mk (s.data.map jsToLower)

/-- The character class `\s` of JS regexes: ASCII whitespace, NBSP and the
Unicode space separators (none beyond ASCII occur in the pipeline's data). -/
def jsWhitespace (c : Char) : Bool :=
  c = ' ' || c = '\t' || c = '\n' || c = '\r' ||
  c.toNat = 11 || c.toNat = 12 || c.toNat = 160 ||
  c.toNat = 0x1680 || (0x2000 ≤ c.toNat && c.toNat ≤ 0x200a) ||
  c.toNat = 0x2028 || c.toNat = 0x2029 || c.toNat = 0x202f ||
  c.toNat = 0x205f || c.toNat = 0x3000 || c.toNat = 0xfeff

/-- Characters kept by `normalizeTitle`'s `.replace(/[^a-z0-9\s]/g, '')`. -/
def allowedChar (c : Char) : Bool :=
  ('a' ≤ c && c ≤ 'z') || ('0' ≤ c && c ≤ '9') || jsWhitespace c

/-- `.replace(/\s+/g, ' ')`: each maximal run of whitespace becomes one
space.  The flag records whether the previous character was whitespace. -/
def collapseWsAux : Bool → List Char → List Char
  | _, [] => []
  | prevWs, c :: cs =>
    if jsWhitespace c then
      if prevWs then collapseWsAux true cs
      else ' ' :: collapseWsAux true cs
    else c :: collapseWsAux false cs

/-- JS `String.prototype.trim`: drop leading and trailing whitespace. -/
def trimList (l : List Char) : List Char :=
  ((l.dropWhile jsWhitespace).reverse.dropWhile jsWhitespace).reverse

/-- `prefixOfList needle hay`: `needle` is a prefix of `hay`. -/
def prefixOfList : List Char → List Char → Bool
  | [], _ => true
  | _ :: _, [] => false
  | a :: as, b :: bs => a == b && prefixOfList as bs

/-- `subList needle hay`: `needle` occurs as a contiguous sublist of `hay`. -/
def subList (needle : List Char) : List Char → Bool
  | [] => prefixOfList needle []
  | b :: bs => prefixOfList needle (b :: bs) || subList needle bs

/-- JS `hay.includes(needle)` (substring containment). -/
def strContains (hay needle : String) : Bool :=
  subList needle.data hay.data

/-- JS `s.split(' ')`: split at every single space character; empty pieces
are kept (the pipeline filters them out by word length anyway). -/
def splitOnSpace : List Char → List (List Char)
  | [] => [[]]
  | c :: cs =>
    match splitOnSpace cs with
    | [] => [[]]
    | w :: ws => if c = ' ' then [] :: w :: ws else (c :: w) :: ws

/-! ## Data model -/

/-- A raw RSS item as `rss-parser` hands it to `fetchRSSFeeds`; fields the
feed omits are `none`, and JS treats the empty string as falsy too. -/
structure RawItem where
  title : Option String := none
  link : Option String := none
  contentSnippet : Option String := none
  content : Option String := none
  description : Option String := none
  pubDate : Option String := none
  isoDate : Option String := none
deriving DecidableEq

/-- A raw NewsAPI result item as `fetchNewsAPI` reads it; `sourceName`
stands for the JS `item.source?.name`. -/
structure APIItem where
  title : Option String := none
  url : Option String := none
  description : Option String := none
  publishedAt : Option String := none
  sourceName : Option String := none
  author : Option String := none
deriving DecidableEq

/-- Per-feed metadata from the `RSS_FEEDS` configuration table. -/
structure Feed where
  source : String
  category : String
deriving DecidableEq

/-- The canonical candidate record (the JS `article` object).  The source
also stores `sourceUrl := item.link`, which no pipeline stage modelled here
ever reads; it is omitted.  `positivityScore` is `0` until `withScore`
runs, mirroring the field being assigned after construction. -/
structure Candidate where
  title : String
  link : String
  description : String
  pubDate : String
  source : String
  category : String
  positivityScore : Int
  author : Option String
deriving DecidableEq

/-- A record of `data/article-archive.json`: the rewritten `headline` and
the `sourceUrl`, a missing field being the (falsy) empty string. -/
structure ArchiveEntry where
  headline : String
  sourceUrl : String
deriving DecidableEq

/-! ## Configuration constants (verbatim from fetch-news.js) -/

/-- `POSITIVE_KEYWORDS` of fetch-news.js. -/
def POSITIVE_KEYWORDS : List String :=
  ["breakthrough", "success", "achieve", "discover", "cure", "solve", "improve",
   "record", "first", "milestone", "victory", "win", "protect", "save", "restore",
   "recover", "grow", "increase", "reduce pollution", "clean energy", "renewable",
   "conservation", "preserved", "thriving", "hope", "progress", "advance",
   "treatment", "vaccine", "therapy", "innovation", "solution", "rescued",
   "recovery", "healing", "sustainable", "green", "solar", "wind power",
   "electric", "recycling", "biodiversity", "reforestation", "rewilding"]

/-- `NEGATIVE_KEYWORDS` of fetch-news.js. -/
def NEGATIVE_KEYWORDS : List String :=
  ["death", "dies", "killed", "murder", "attack", "terror", "war", "crisis",
   "disaster", "catastrophe", "collapse", "crash", "fear", "threat", "danger",
   "scandal", "corruption", "fraud", "violence", "victim", "tragedy", "worst",
   "devastating", "alarming", "warning", "extinct", "failed", "failure"]

/-- The trusted positive-news source list, written inline three times in
fetch-news.js (`['Positive News', 'Good News Network', 'Reasons to be
Cheerful']`). -/
def TRUSTED_SOURCES : List String :=
  ["Positive News", "Good News Network", "Reasons to be Cheerful"]

/-! ## Positivity scorer -/

/-- The scored text: `` `${article.title} ${article.description}`.toLowerCase() ``. -/
def textOf (a : Candidate) : String :=
  lowerStr (a.title ++ " " ++ a.description)

/-- `scorePositivity(article)`: −10 per negative keyword present as a
substring, +2 per positive keyword present, +5 if the source is trusted. -/
def scorePositivity (a : Candidate) : Int :=
  let text := textOf a
  let s1 : Int :=
    NEGATIVE_KEYWORDS.foldl (fun s k => if strContains text k then s - 10 else s) 0
  let s2 : Int :=
    POSITIVE_KEYWORDS.foldl (fun s k => if strContains text k then s + 2 else s) s1
  if TRUSTED_SOURCES.contains a.source then s2 + 5 else s2

/-- `article.positivityScore = scorePositivity(article)`. -/
def withScore (a : Candidate) : Candidate :=
  { a with positivityScore := scorePositivity a }

/-! ## Normalizer -/

/-- JS `a || b` on a possibly-missing string: `b` when `a` is absent or
empty (falsy). -/
def jsOr (a : Option String) (b : String) : String :=
  match a with
  | none => b
  | some s => if s = "" then b else s

/-- The article construction of the RSS loop of `fetchRSSFeeds`:
`title: item.title || ''`, `link: item.link || ''`,
`description: item.contentSnippet || item.content || item.description || ''`,
`pubDate: item.pubDate || item.isoDate || new Date().toISOString()` (the
fetch time is the explicit `now` argument), source and category from the
feed configuration. -/
def normalizeRSS (it : RawItem) (f : Feed) (now : String) : Candidate :=
  { title := jsOr it.title ""
    link := jsOr it.link ""
    description := jsOr it.contentSnippet (jsOr it.content (jsOr it.description ""))
    pubDate := jsOr it.pubDate (jsOr it.isoDate now)
    source := f.source
    category := f.category
    positivityScore := 0
    author := none }

/-- The article construction of the NewsAPI loop of `fetchNewsAPI`:
`title: item.title || ''`, `link: item.url || ''`,
`description: item.description || ''`,
`pubDate: item.publishedAt || new Date().toISOString()`,
`source: item.source?.name || 'NewsAPI'`, category from the query. -/
def normalizeAPI (it : APIItem) (category : String) (now : String) : Candidate :=
  { title := jsOr it.title ""
    link := jsOr it.url ""
    description := jsOr it.description ""
    pubDate := jsOr it.publishedAt now
    source := jsOr it.sourceName "NewsAPI"
    category := category
    positivityScore := 0
    author := it.author }

/-! ## Fetch paths (admission gates) -/

/-- The RSS fetch path: per feed, up to 20 items are normalized, scored and
admitted when `article.positivityScore > 0 ||
['Positive News', 'Good News Network', 'Reasons to be Cheerful'].includes(feed.source)`.
Feed fetching itself (network) is outside the model; a run is a list of
feeds each paired with the items its fetch produced. -/
def fetchRSSFeeds : List (Feed × List RawItem) → String → List Candidate
  | [], _ => []
  | p :: ps, now =>
    (((p.2.take 20).map (fun it => withScore (normalizeRSS it p.1 now))).filter
      (fun a => decide (a.positivityScore > 0) || TRUSTED_SOURCES.contains p.1.source))
    ++ fetchRSSFeeds ps now

/-- The `[Removed]` skip of the NewsAPI loop:
`if (item.title === '[Removed]' || item.description === '[Removed]') continue`. -/
def removedItem (it : APIItem) : Bool :=
  it.title == some "[Removed]" || it.description == some "[Removed]"

/-- The NewsAPI fetch path: per query, surviving items are normalized,
scored and admitted when `article.positivityScore > 0` — with no
trusted-source alternative, unlike the RSS path. -/
def fetchNewsAPI : List (String × List APIItem) → String → List Candidate
  | [], _ => []
  | q :: qs, now =>
    (((q.2.filter (fun it => !removedItem it)).map
        (fun it => withScore (normalizeAPI it q.1 now))).filter
      (fun a => decide (a.positivityScore > 0)))
    ++ fetchNewsAPI qs now

/-! ## Archive matcher -/

/-- `normalizeTitle(title)`: lowercase, strip characters outside
`[a-z0-9\s]`, collapse whitespace runs to one space, trim, keep the first
80 characters. -/
def normalizeTitle (title : String) : String :=
  String.mk ((trimList (collapseWsAux false ((lowerStr title).data.filter allowedChar))).take 80)

/-- The index `loadPublishedArticles` builds: the normalized headlines and
the source URLs of the archive.  The JS `Set`s are modelled as lists; only
membership and iteration of them are ever used, so duplicates are
immaterial to every boolean the matcher computes. -/
structure ArchiveIndex where
  publishedTitles : List String
  publishedUrls : List String
deriving DecidableEq

/-- `loadPublishedArticles()`: a missing or malformed archive file (the
`none` case) yields empty sets; otherwise each entry contributes its
normalized headline and its source URL, each only when truthy (non-empty). -/
def loadPublishedArticles (archive : Option (List ArchiveEntry)) : ArchiveIndex :=
  match archive with
  | none => ⟨[], []⟩
  | some entries =>
    ⟨(entries.filter (fun e => e.headline ≠ "")).map (fun e => normalizeTitle e.headline),
     (entries.filter (fun e => e.sourceUrl ≠ "")).map (fun e => e.sourceUrl)⟩

/-- The significant words of a normalized title:
`t.split(' ').filter(w => w.length > 3)`. -/
def significantWords (t : String) : List String :=
  ((splitOnSpace t.data).map String.mk).filter (fun w => w.length > 3)

/-- One iteration of the fuzzy-overlap loop of `wasPublished` against one
archived normalized title: both word lists must have at least 4 significant
words and `matchingWords.length / min(titleWords.length, pubWords.length)`
must reach `0.7`.  For word counts of this size the IEEE-double comparison
`m / n >= 0.7` holds exactly when `10 * m ≥ 7 * n` over the integers (the
two sides can only be closer than one part in `10 * n` when equal, far
outside double rounding error), so the threshold is stated rationally. -/
def fuzzyTitleDup (normTitle pubTitle : String) : Bool :=
  let titleWords := significantWords normTitle
  let pubWords := significantWords pubTitle
  decide (titleWords.length ≥ 4) && decide (pubWords.length ≥ 4) &&
    decide (10 * (titleWords.filter (fun w => pubWords.contains w)).length ≥
      7 * min titleWords.length pubWords.length)

/-- `wasPublished(article, publishedTitles, publishedUrls)`: URL check
(guarded by `article.link &&`, so an empty link never matches), then exact
normalized-title membership, then the fuzzy word-overlap scan over every
archived title. -/
def wasPublished (a : Candidate) (idx : ArchiveIndex) : Bool :=
  (a.link != "" && idx.publishedUrls.contains a.link) ||
  idx.publishedTitles.contains (normalizeTitle a.title) ||
  idx.publishedTitles.any (fun pubTitle => fuzzyTitleDup (normalizeTitle a.title) pubTitle)

/-! ## Batch deduplicator -/

/-- The dedup key of `fetchAllNews`: `article.title.toLowerCase().slice(0, 50)`. -/
def batchKey (a : Candidate) : String :=
  String.mk ((lowerStr a.title).data.take 50)

/-- The `seen`-set filter of `fetchAllNews`, with the set of already-seen
keys passed along explicitly. -/
def dedupeGo (seen : List String) : List Candidate → List Candidate
  | [] => []
  | c :: cs =>
    if seen.contains (batchKey c) then dedupeGo seen cs
    else c :: dedupeGo (batchKey c :: seen) cs

/-- Batch deduplication: keep, in input order, the first candidate of each
key. -/
def dedupeBatch (cs : List Candidate) : List Candidate :=
  dedupeGo [] cs

/-! ## Selector -/

/-- Insert a candidate into an already-sorted (descending) list, after
every element whose score is strictly greater — placing a later input
element after the equal-scored elements already present, which is exactly
the stable order. -/
def sortInsertDesc (c : Candidate) : List Candidate → List Candidate
  | [] => [c]
  | d :: ds =>
    if c.positivityScore ≥ d.positivityScore then c :: d :: ds
    else d :: sortInsertDesc c ds

/-- Stable sort by `positivityScore` descending, modelling the JS
`freshArticles.sort((a, b) => b.positivityScore - a.positivityScore)`
(`Array.prototype.sort` is stable per ECMA-262). -/
def sortByScoreDesc : List Candidate → List Candidate
  | [] => []
  | c :: cs => sortInsertDesc c (sortByScoreDesc cs)

/-- The Selector: sort by score descending (stably) and truncate,
modelling `.sort(...)` followed by `.slice(0, maxCount)` (the source uses
`maxCount = 100`). -/
def select (cs : List Candidate) (maxCount : Nat) : List Candidate :=
  (sortByScoreDesc cs).take maxCount

/-! ## Concrete inputs used by the claim theorems -/

/-- A candidate with the given title and link and all other fields inert. -/
def demoCandidate (title link : String) : Candidate :=
  { title := title, link := link, description := "", pubDate := ""
    source := "", category := "general", positivityScore := 0, author := none }

/-- A candidate carrying just an attached score, for the selector claims. -/
def scoredCandidate (title : String) (n : Int) : Candidate :=
  { title := title, link := "", description := "", pubDate := ""
    source := "", category := "general", positivityScore := n, author := none }

/-- Candidate whose title shares 3 of 4 significant words with the
archived headline of `coralArchive3` and 2 of 4 with `coralArchive2`. -/
def coralCandidate : Candidate :=
  demoCandidate "Coral Reef Record Recovery" "https://news.example/coral-a"

/-- Archive index holding one headline sharing 3 of 4 significant words
with `coralCandidate` (and a different URL). -/
def coralArchive3 : ArchiveIndex :=
  loadPublishedArticles (some [⟨"Coral Reef Record Setback", "https://other.example/coral-b"⟩])

/-- Archive index holding one headline sharing 2 of 4 significant words
with `coralCandidate` (and a different URL). -/
def coralArchive2 : ArchiveIndex :=
  loadPublishedArticles (some [⟨"Coral Reef Grows Bigger", "https://other.example/coral-b"⟩])

/-- Candidate whose significant words repeat (`coral` three times), for
the occurrence-counting claim. -/
def repeatCandidate : Candidate :=
  demoCandidate "Coral Coral Coral Reef Under" "https://news.example/coral-r"

/-- The archived headline `repeatCandidate` is fuzzily matched against. -/
def repeatHeadline : String := "Coral Recovery Record Bleaching"

/-- One-entry archive with `repeatHeadline` and an unrelated URL. -/
def repeatArchive : List ArchiveEntry :=
  [⟨repeatHeadline, "https://other.example/coral-s"⟩]

/-- Candidate with an empty (falsy) link and a title too short for any
title match. -/
def tinyCandidate : Candidate := demoCandidate "tiny" ""

/-- One archive entry whose `sourceUrl` is the empty string. -/
def emptyUrlEntry : ArchiveEntry := ⟨"completely different words here", ""⟩

/-- RSS item whose text holds exactly one negative keyword (`war`) and one
positive keyword (`hope`). -/
def warHopeItem : RawItem := { title := some "war", contentSnippet := some "hope" }

/-- The candidate the RSS path builds from `warHopeItem` for an untrusted
feed. -/
def warHopeCandidate : Candidate :=
  withScore (normalizeRSS warHopeItem ⟨"Some Blog", "general"⟩ "T")

/-- NewsAPI item from a trusted source whose text holds one negative
keyword, so its score is `-10 + 5 = -5`. -/
def trustedAPIItem : APIItem :=
  { title := some "war", url := some "http://x.example/1", sourceName := some "Positive News" }

/-- Candidate with empty title and description from a trusted source. -/
def emptyTrustedCandidate : Candidate :=
  { title := "", link := "", description := "", pubDate := ""
    source := "Positive News", category := "general", positivityScore := 0, author := none }

/-- Score-5 candidate appearing first in the selector example. -/
def candA : Candidate := scoredCandidate "first of the fives" 5
/-- Score-5 candidate appearing second in the selector example. -/
def candB : Candidate := scoredCandidate "second of the fives" 5
/-- Score-3 candidate of the selector example. -/
def candC : Candidate := scoredCandidate "the three" 3
/-- Score-8 candidate of the selector example. -/
def candD : Candidate := scoredCandidate "the eight" 8

/-! ## Helper lemmas -/

theorem foldl_sub_ten (q : String → Bool) (l : List String) (init : Int) :
    l.foldl (fun s k => if q k then s - 10 else s) init = init - 10 * l.countP q := by
  induction l generalizing init with
  | nil => simp
  | cons k ks ih =>
    simp only [List.foldl_cons, List.countP_cons]
    cases hq : q k <;> simp [hq, ih] <;> ring

theorem foldl_add_two (q : String → Bool) (l : List String) (init : Int) :
    l.foldl (fun s k => if q k then s + 2 else s) init = init + 2 * l.countP q := by
  induction l generalizing init with
  | nil => simp
  | cons k ks ih =>
    simp only [List.foldl_cons, List.countP_cons]
    cases hq : q k <;> simp [hq, ih] <;> ring

theorem scorePositivity_closed_form (a : Candidate) :
    scorePositivity a =
      2 * (POSITIVE_KEYWORDS.countP (fun k => strContains (textOf a) k) : Int) -
        10 * (NEGATIVE_KEYWORDS.countP (fun k => strContains (textOf a) k) : Int) +
        (if TRUSTED_SOURCES.contains a.source then 5 else 0) := by
  simp only [scorePositivity, foldl_sub_ten, foldl_add_two]
  cases h : TRUSTED_SOURCES.contains a.source <;> simp [h] <;> ring

theorem mem_fetchRSSFeeds (feeds : List (Feed × List RawItem)) (now : String) (a : Candidate) :
    a ∈ fetchRSSFeeds feeds now ↔
      ∃ p ∈ feeds, ∃ it ∈ p.2.take 20,
        a = withScore (normalizeRSS it p.1 now) ∧
        (a.positivityScore > 0 ∨ TRUSTED_SOURCES.contains p.1.source = true) := by
  induction feeds with
  | nil => simp [fetchRSSFeeds]
  | cons p ps ih =>
    simp only [fetchRSSFeeds, List.mem_append, ih, List.mem_filter, List.mem_map,
      List.mem_cons, Bool.or_eq_true, decide_eq_true_eq]
    constructor
    · rintro (⟨⟨it, hit, rfl⟩, hq⟩ | ⟨q, hq, it, hit, rfl, hadm⟩)
      · exact ⟨p, Or.inl rfl, it, hit, rfl, hq⟩
      · exact ⟨q, Or.inr hq, it, hit, rfl, hadm⟩
    · rintro ⟨q, (rfl | hq), it, hit, rfl, hadm⟩
      · exact Or.inl ⟨⟨it, hit, rfl⟩, hadm⟩
      · exact Or.inr ⟨q, hq, it, hit, rfl, hadm⟩

theorem mem_fetchNewsAPI (qs : List (String × List APIItem)) (now : String) (a : Candidate) :
    a ∈ fetchNewsAPI qs now ↔
      ∃ q ∈ qs, ∃ it ∈ q.2,
        removedItem it = false ∧ a = withScore (normalizeAPI it q.1 now) ∧
        a.positivityScore > 0 := by
  induction qs with
  | nil => simp [fetchNewsAPI]
  | cons q qs ih =>
    simp only [fetchNewsAPI, List.mem_append, ih, List.mem_filter, List.mem_map,
      List.mem_cons, Bool.not_eq_true', decide_eq_true_eq]
    constructor
    · rintro (⟨⟨it, ⟨hit, hrem⟩, rfl⟩, hq⟩ | ⟨r, hr, it, hit, hrem, rfl, hadm⟩)
      · exact ⟨q, Or.inl rfl, it, hit, hrem, rfl, hq⟩
      · exact ⟨r, Or.inr hr, it, hit, hrem, rfl, hadm⟩
    · rintro ⟨r, (rfl | hr), it, hit, hrem, rfl, hadm⟩
      · exact Or.inl ⟨⟨it, ⟨hit, hrem⟩, rfl⟩, hadm⟩
      · exact Or.inr ⟨r, hr, it, hit, hrem, rfl, hadm⟩

theorem length_sortInsertDesc (c : Candidate) (l : List Candidate) :
    (sortInsertDesc c l).length = l.length + 1 := by
  induction l with
  | nil => rfl
  | cons d ds ih =>
    by_cases h : c.positivityScore ≥ d.positivityScore <;>
      simp [sortInsertDesc, h, ih]

theorem length_sortByScoreDesc (l : List Candidate) :
    (sortByScoreDesc l).length = l.length := by
  induction l with
  | nil => rfl
  | cons c cs ih => simp [sortByScoreDesc, length_sortInsertDesc, ih]

theorem filter_sortInsertDesc (c : Candidate) (l : List Candidate) (s : Int) :
    (sortInsertDesc c l).filter (fun d => d.positivityScore == s) =
      if c.positivityScore == s then c :: l.filter (fun d => d.positivityScore == s)
      else l.filter (fun d => d.positivityScore == s) := by
  induction l with
  | nil => cases hc : (c.positivityScore == s) <;> simp [sortInsertDesc, hc]
  | cons d ds ih =>
    by_cases h : c.positivityScore ≥ d.positivityScore
    · simp [sortInsertDesc, h, List.filter_cons]
    · simp only [sortInsertDesc, if_neg h, List.filter_cons, ih]
      cases hd : (d.positivityScore == s) <;> cases hc : (c.positivityScore == s) <;>
        simp_all

theorem filter_sortByScoreDesc (l : List Candidate) (s : Int) :
    (sortByScoreDesc l).filter (fun d => d.positivityScore == s) =
      l.filter (fun d => d.positivityScore == s) := by
  induction l with
  | nil => rfl
  | cons c cs ih =>
    rw [sortByScoreDesc, filter_sortInsertDesc, List.filter_cons, ih]

theorem mem_sortInsertDesc (x c : Candidate) (l : List Candidate) :
    x ∈ sortInsertDesc c l ↔ x = c ∨ x ∈ l := by
  induction l with
  | nil => simp [sortInsertDesc]
  | cons d ds ih =>
    by_cases h : c.positivityScore ≥ d.positivityScore
    · simp [sortInsertDesc, h]
    · simp [sortInsertDesc, h, ih]
      tauto

theorem pairwise_sortInsertDesc (c : Candidate) (l : List Candidate)
    (hl : l.Pairwise (fun a b => a.positivityScore ≥ b.positivityScore)) :
    (sortInsertDesc c l).Pairwise (fun a b => a.positivityScore ≥ b.positivityScore) := by
  induction l with
  | nil => simp [sortInsertDesc]
  | cons d ds ih =>
    rw [List.pairwise_cons] at hl
    by_cases h : c.positivityScore ≥ d.positivityScore
    · rw [sortInsertDesc, if_pos h, List.pairwise_cons]
      refine ⟨?_, List.pairwise_cons.mpr hl⟩
      intro x hx
      rcases List.mem_cons.mp hx with rfl | hx
      · exact h
      · exact le_trans (hl.1 x hx) h
    · rw [sortInsertDesc, if_neg h, List.pairwise_cons]
      refine ⟨?_, ih hl.2⟩
      intro x hx
      rcases (mem_sortInsertDesc x c ds).mp hx with rfl | hx
      · exact le_of_not_ge h
      · exact hl.1 x hx

theorem pairwise_sortByScoreDesc (l : List Candidate) :
    (sortByScoreDesc l).Pairwise (fun a b => a.positivityScore ≥ b.positivityScore) := by
  induction l with
  | nil => exact List.Pairwise.nil
  | cons c cs ih => exact pairwise_sortInsertDesc c _ ih

theorem dedupeGo_idem (cs : List Candidate) (seen : List String) :
    dedupeGo seen (dedupeGo seen cs) = dedupeGo seen cs := by
  induction cs generalizing seen with
  | nil => rfl
  | cons c cs ih =>
    by_cases h : batchKey c ∈ seen <;> simp [dedupeGo, h, ih]

/-! ## Claim theorems -/

/-- C1, counterexample: a NewsAPI item whose source name is the trusted
`Positive News` and whose text holds one negative keyword scores
`-10 + 5 = -5 ≤ 0` and is NOT admitted by the NewsAPI fetch path, although
the claim's qualification rule (score > 0 OR trusted source, on every
fetch path alike) says trusted membership alone should admit it. -/
theorem C1_counterexample :
    TRUSTED_SOURCES.contains (withScore (normalizeAPI trustedAPIItem "general" "T")).source = true ∧
    (withScore (normalizeAPI trustedAPIItem "general" "T")).positivityScore = -5 ∧
    fetchNewsAPI [("general", [trustedAPIItem])] "T" = [] := by decide

/-- C1 (amended): the candidates the RSS path emits are exactly the
normalized, scored items (at most 20 per feed) with `score > 0` or a
trusted feed source, while the candidates the NewsAPI path emits are
exactly the normalized, scored, non-`[Removed]` items with `score > 0` —
the trusted-source override exists only on the RSS path. -/
theorem C1_admission_per_path (feeds : List (Feed × List RawItem))
    (qs : List (String × List APIItem)) (now : String) (a : Candidate) :
    (a ∈ fetchRSSFeeds feeds now ↔
      ∃ p ∈ feeds, ∃ it ∈ p.2.take 20,
        a = withScore (normalizeRSS it p.1 now) ∧
        (a.positivityScore > 0 ∨ TRUSTED_SOURCES.contains p.1.source = true)) ∧
    (a ∈ fetchNewsAPI qs now ↔
      ∃ q ∈ qs, ∃ it ∈ q.2,
        removedItem it = false ∧ a = withScore (normalizeAPI it q.1 now) ∧
        a.positivityScore > 0) :=
  ⟨mem_fetchRSSFeeds feeds now a, mem_fetchNewsAPI qs now a⟩

/-- C2: when neither the URL check nor the exact normalized-title check
fires, `wasPublished` answers true exactly when some archived title passes
the fuzzy word-overlap test (words of length > 3, both lists of length
≥ 4, overlap ratio ≥ 0.7); concretely, `coralCandidate`'s title has 4
significant words, shares 3 of them with the archived headline of
`coralArchive3` (ratio 0.75) and is reported published, and shares 2 of
them with the archived headline of `coralArchive2` (ratio 0.5) and is not. -/
theorem C2_fuzzy_overlap :
    (∀ (a : Candidate) (idx : ArchiveIndex),
        (a.link != "" && idx.publishedUrls.contains a.link) = false →
        idx.publishedTitles.contains (normalizeTitle a.title) = false →
        (wasPublished a idx = true ↔
          ∃ p ∈ idx.publishedTitles, fuzzyTitleDup (normalizeTitle a.title) p = true)) ∧
    (significantWords (normalizeTitle coralCandidate.title)).length = 4 ∧
    ((significantWords (normalizeTitle coralCandidate.title)).filter
        (fun w => (significantWords (normalizeTitle "Coral Reef Record Setback")).contains w)).length = 3 ∧
    wasPublished coralCandidate coralArchive3 = true ∧
    ((significantWords (normalizeTitle coralCandidate.title)).filter
        (fun w => (significantWords (normalizeTitle "Coral Reef Grows Bigger")).contains w)).length = 2 ∧
    wasPublished coralCandidate coralArchive2 = false := by
  refine ⟨?_, by decide, by decide, by decide, by decide, by decide⟩
  intro a idx h1 h2
  rw [wasPublished, h1, h2]
  simp [List.any_eq_true]

/-- C2, witness: the equivalence instantiated at `coralCandidate` against
`coralArchive3`, whose hypotheses (no URL match, no exact title match)
hold by evaluation. -/
theorem C2_fuzzy_overlap_witness :
    wasPublished coralCandidate coralArchive3 = true ↔
      ∃ p ∈ coralArchive3.publishedTitles,
        fuzzyTitleDup (normalizeTitle coralCandidate.title) p = true :=
  C2_fuzzy_overlap.1 coralCandidate coralArchive3 (by decide) (by decide)

/-- C3: the Selector stably sorts by score descending and truncates:
for input scores `[5, 5, 3, 8]` and `maxCount = 3` the output is the
score-8 candidate then the two score-5 candidates in input order, length 3;
candidates of equal score always keep their relative input order (the
subsequence at any score `s` is unchanged); the output length is
`min maxCount (input length)`; an input no longer than `maxCount` is
returned in full, stably sorted; and the result is sorted descending. -/
theorem C3_selector :
    select [candA, candB, candC, candD] 3 = [candD, candA, candB] ∧
    (∀ (xs : List Candidate) (s : Int),
        (sortByScoreDesc xs).filter (fun c => c.positivityScore == s) =
          xs.filter (fun c => c.positivityScore == s)) ∧
    (∀ (xs : List Candidate) (n : Nat), (select xs n).length = min n xs.length) ∧
    (∀ (xs : List Candidate) (n : Nat), xs.length ≤ n → select xs n = sortByScoreDesc xs) ∧
    (∀ xs : List Candidate,
        (sortByScoreDesc xs).Pairwise (fun a b => a.positivityScore ≥ b.positivityScore)) := by
  refine ⟨by decide, filter_sortByScoreDesc, ?_, ?_, pairwise_sortByScoreDesc⟩
  · intro xs n
    rw [select, List.length_take, length_sortByScoreDesc]
  · intro xs n h
    rw [select, List.take_of_length_le (by rw [length_sortByScoreDesc]; exact h)]

/-- C3, witness: the shorter-than-`maxCount` clause instantiated at a
two-element input with `maxCount = 5`. -/
theorem C3_selector_witness :
    [candA, candC].length ≤ 5 ∧ select [candA, candC] 5 = sortByScoreDesc [candA, candC] :=
  ⟨by decide, C3_selector.2.2.2.1 [candA, candC] 5 (by decide)⟩

/-- C4: the scorer is the integer sum of +2 per positive keyword present
as a substring of the lowercased `title ++ " " ++ description`, −10 per
negative keyword present (each keyword counted once), plus 5 for a trusted
source; the `war`/`hope` candidate holds exactly one keyword of each kind
and scores `2 - 10 = -8` from its untrusted source, and qualification is
decided by `score > 0` or trusted membership alone: the same raw item is
dropped by the RSS path from an untrusted feed and admitted from a trusted
one. -/
theorem C4_scorer :
    (∀ a : Candidate, scorePositivity a =
        2 * (POSITIVE_KEYWORDS.countP (fun k => strContains (textOf a) k) : Int) -
          10 * (NEGATIVE_KEYWORDS.countP (fun k => strContains (textOf a) k) : Int) +
          (if TRUSTED_SOURCES.contains a.source then 5 else 0)) ∧
    (NEGATIVE_KEYWORDS.countP (fun k => strContains (textOf warHopeCandidate) k)) = 1 ∧
    (POSITIVE_KEYWORDS.countP (fun k => strContains (textOf warHopeCandidate) k)) = 1 ∧
    scorePositivity warHopeCandidate = -8 ∧
    TRUSTED_SOURCES.contains warHopeCandidate.source = false ∧
    fetchRSSFeeds [(⟨"Some Blog", "general"⟩, [warHopeItem])] "T" = [] ∧
    (fetchRSSFeeds [(⟨"Positive News", "general"⟩, [warHopeItem])] "T").length = 1 :=
  ⟨scorePositivity_closed_form, by decide, by decide, by decide, by decide, by decide, by decide⟩

/-- C5, counterexample: a candidate with empty title and description from
the trusted source `Positive News` is scored 5 (the trust bonus), not 0,
and it qualifies via `score > 0` itself — the claim's "scorer yields 0 and
never qualifies via score > 0" fails on trusted sources. -/
theorem C5_counterexample :
    emptyTrustedCandidate.title = "" ∧ emptyTrustedCandidate.description = "" ∧
    scorePositivity emptyTrustedCandidate = 5 ∧ 0 < scorePositivity emptyTrustedCandidate := by
  decide

/-- C5 (amended): a candidate with empty title and description gets no
keyword contribution: its score is the trust bonus alone — 0 from an
untrusted source (which therefore never qualifies via `score > 0`), 5 from
a trusted one (which qualifies via `score > 0` as well as the override). -/
theorem C5_empty_text_score (a : Candidate) (ht : a.title = "") (hd : a.description = "") :
    scorePositivity a = (if TRUSTED_SOURCES.contains a.source then 5 else 0) ∧
    (TRUSTED_SOURCES.contains a.source = false →
      scorePositivity a = 0 ∧ ¬(0 < scorePositivity a)) ∧
    (TRUSTED_SOURCES.contains a.source = true →
      scorePositivity a = 5 ∧ 0 < scorePositivity a) := by
  have htext : textOf a = " " := by
    rw [textOf, ht, hd]
    decide
  have hmain : scorePositivity a = if TRUSTED_SOURCES.contains a.source then 5 else 0 := by
    simp only [scorePositivity, htext]
    cases h : TRUSTED_SOURCES.contains a.source <;> simp [h] <;> decide
  refine ⟨hmain, fun h => ?_, fun h => ?_⟩ <;> rw [hmain, h] <;> simp

/-- C5, witness: the amended statement instantiated at a concrete
empty-text candidate (untrusted source, so score 0 and no qualification
via the score gate). -/
theorem C5_empty_text_score_witness :
    scorePositivity (demoCandidate "" "") =
      (if TRUSTED_SOURCES.contains (demoCandidate "" "").source then 5 else 0) ∧
    (TRUSTED_SOURCES.contains (demoCandidate "" "").source = false →
      scorePositivity (demoCandidate "" "") = 0 ∧ ¬(0 < scorePositivity (demoCandidate "" ""))) ∧
    (TRUSTED_SOURCES.contains (demoCandidate "" "").source = true →
      scorePositivity (demoCandidate "" "") = 5 ∧ 0 < scorePositivity (demoCandidate "" "")) :=
  C5_empty_text_score (demoCandidate "" "") rfl rfl

/-- C6, counterexample: `wasPublished` guards the URL check with JS
truthiness (`article.link && ...`) and `loadPublishedArticles` skips falsy
`sourceUrl`s, so a candidate whose empty link exactly equals an archive
entry's empty `sourceUrl` is NOT reported published — the claim's "for
every candidate whose link exactly equals the sourceUrl of some archive
entry" fails at the empty string. -/
theorem C6_counterexample :
    tinyCandidate.link = emptyUrlEntry.sourceUrl ∧
    wasPublished tinyCandidate (loadPublishedArticles (some [emptyUrlEntry])) = false := by
  decide

/-- C6 (amended): every candidate whose NON-EMPTY link exactly equals the
`sourceUrl` of some archive entry is reported published, regardless of its
title content (the URL check is the first disjunct and decides on its
own). -/
theorem C6_url_match (a : Candidate) (entries : List ArchiveEntry) (e : ArchiveEntry)
    (he : e ∈ entries) (hlink : a.link = e.sourceUrl) (hne : a.link ≠ "") :
    wasPublished a (loadPublishedArticles (some entries)) = true := by
  have h1 : (a.link != "") = true := bne_iff_ne.mpr hne
  have h2 : (loadPublishedArticles (some entries)).publishedUrls.contains a.link = true := by
    rw [loadPublishedArticles]
    have hee : e ∈ entries.filter (fun x => decide (x.sourceUrl ≠ "")) :=
      List.mem_filter.mpr ⟨he, decide_eq_true_eq.mpr (hlink ▸ hne)⟩
    have hmem : a.link ∈ (entries.filter (fun x => decide (x.sourceUrl ≠ ""))).map
        (fun x => x.sourceUrl) :=
      List.mem_map.mpr ⟨e, hee, hlink.symm⟩
    simpa using hmem
  rw [wasPublished, h1, h2]
  simp

/-- C6, witness: the amended statement at a concrete candidate whose
non-empty link equals the archived `sourceUrl` while the titles share no
words. -/
theorem C6_url_match_witness :
    wasPublished (demoCandidate "anything at all" "https://match.example/x")
      (loadPublishedArticles
        (some [⟨"unrelated headline words entirely", "https://match.example/x"⟩])) = true :=
  C6_url_match (demoCandidate "anything at all" "https://match.example/x")
    [⟨"unrelated headline words entirely", "https://match.example/x"⟩]
    ⟨"unrelated headline words entirely", "https://match.example/x"⟩
    (List.mem_singleton.mpr rfl) rfl (by decide)

/-- C7: with an empty archive — whether from zero records or from a
missing/malformed archive file (the `none` case of the loader) —
`wasPublished` answers false for every candidate, and the history filter
of `fetchAllNews` keeps every candidate (deduplication against history is
a no-op, never a failure). -/
theorem C7_empty_archive :
    (∀ a : Candidate, wasPublished a (loadPublishedArticles none) = false) ∧
    (∀ a : Candidate, wasPublished a (loadPublishedArticles (some [])) = false) ∧
    (∀ cs : List Candidate,
        cs.filter (fun a => !wasPublished a (loadPublishedArticles none)) = cs) := by
  refine ⟨fun a => ?_, fun a => ?_, fun cs => ?_⟩
  · simp [wasPublished, loadPublishedArticles]
  · simp [wasPublished, loadPublishedArticles]
  · exact List.filter_eq_self.mpr fun a _ => by
      simp [wasPublished, loadPublishedArticles]

/-- C8: batch deduplication (first occurrence of each key wins, the key
being the lowercased 50-character title prefix) is idempotent. -/
theorem C8_dedupe_idempotent (xs : List Candidate) :
    dedupeBatch (dedupeBatch xs) = dedupeBatch xs :=
  dedupeGo_idem xs []

/-- C9: the Normalizer is a total function (both constructions return a
`Candidate` for every input by type) and deterministic, and it defaults a
missing title, link or description to the empty string and a missing
publish timestamp to the fetch time `now`, on the RSS path
(`pubDate || isoDate || now`) and the NewsAPI path (`publishedAt || now`)
alike. -/
theorem C9_normalizer :
    (∀ (it : RawItem) (f : Feed) (now : String),
        normalizeRSS it f now = normalizeRSS it f now ∧
        (it.title = none → (normalizeRSS it f now).title = "") ∧
        (it.link = none → (normalizeRSS it f now).link = "") ∧
        (it.contentSnippet = none → it.content = none → it.description = none →
          (normalizeRSS it f now).description = "") ∧
        (it.pubDate = none → it.isoDate = none → (normalizeRSS it f now).pubDate = now)) ∧
    (∀ (it : APIItem) (cat now : String),
        normalizeAPI it cat now = normalizeAPI it cat now ∧
        (it.title = none → (normalizeAPI it cat now).title = "") ∧
        (it.url = none → (normalizeAPI it cat now).link = "") ∧
        (it.description = none → (normalizeAPI it cat now).description = "") ∧
        (it.publishedAt = none → (normalizeAPI it cat now).pubDate = now)) := by
  constructor
  · intro it f now
    refine ⟨rfl, fun h => ?_, fun h => ?_, fun h1 h2 h3 => ?_, fun h1 h2 => ?_⟩ <;>
      simp [normalizeRSS, jsOr, *]
  · intro it cat now
    refine ⟨rfl, fun h => ?_, fun h => ?_, fun h => ?_, fun h => ?_⟩ <;>
      simp [normalizeAPI, jsOr, *]

/-- C9, witness: both normalizers at an all-missing raw item default the
title to `""` and the timestamp to the supplied fetch time. -/
theorem C9_normalizer_witness :
    (normalizeRSS {} ⟨"Positive News", "general"⟩ "2026-01-01T00:00:00Z").title = "" ∧
    (normalizeRSS {} ⟨"Positive News", "general"⟩ "2026-01-01T00:00:00Z").pubDate =
      "2026-01-01T00:00:00Z" ∧
    (normalizeAPI {} "science" "2026-01-01T00:00:00Z").link = "" ∧
    (normalizeAPI {} "science" "2026-01-01T00:00:00Z").pubDate = "2026-01-01T00:00:00Z" :=
  ⟨(C9_normalizer.1 {} ⟨"Positive News", "general"⟩ "2026-01-01T00:00:00Z").2.1 rfl,
   (C9_normalizer.1 {} ⟨"Positive News", "general"⟩ "2026-01-01T00:00:00Z").2.2.2.2 rfl rfl,
   (C9_normalizer.2 {} "science" "2026-01-01T00:00:00Z").2.2.1 rfl,
   (C9_normalizer.2 {} "science" "2026-01-01T00:00:00Z").2.2.2.2 rfl⟩

/-- C10: the fuzzy check's `matchingWords` is
`titleWords.filter(w => pubWords.includes(w))`, counting every occurrence
in the candidate's word list: `repeatCandidate` has 5 significant words
(`coral` three times), the archived headline has 4, the occurrence count
is 3 (reaching the 0.7 ratio: 30 ≥ 28) and the candidate is reported
published, although only 1 distinct word is shared — a distinct-word count
would stay below the 0.7 ratio (10 < 21). -/
theorem C10_occurrence_matching :
    (significantWords (normalizeTitle repeatCandidate.title)).length = 5 ∧
    (significantWords (normalizeTitle repeatHeadline)).length = 4 ∧
    ((significantWords (normalizeTitle repeatCandidate.title)).filter
        (fun w => (significantWords (normalizeTitle repeatHeadline)).contains w)).length = 3 ∧
    10 * ((significantWords (normalizeTitle repeatCandidate.title)).filter
        (fun w => (significantWords (normalizeTitle repeatHeadline)).contains w)).length ≥
      7 * min (significantWords (normalizeTitle repeatCandidate.title)).length
        (significantWords (normalizeTitle repeatHeadline)).length ∧
    wasPublished repeatCandidate (loadPublishedArticles (some repeatArchive)) = true ∧
    ((significantWords (normalizeTitle repeatCandidate.title)).dedup.filter
        (fun w => (significantWords (normalizeTitle repeatHeadline)).contains w)).length = 1 ∧
    10 * ((significantWords (normalizeTitle repeatCandidate.title)).dedup.filter
        (fun w => (significantWords (normalizeTitle repeatHeadline)).contains w)).length <
      7 * min (significantWords (normalizeTitle repeatCandidate.title)).dedup.length
        (significantWords (normalizeTitle repeatHeadline)).dedup.length := by
  decide
